/-
Verification of the photo-download repository's acquisition pipeline.

The Python sources are shallowly embedded as Lean definitions:
* pure string manipulation (fingerprint extraction) works on `List Char`
  mirroring Python's `split` operations;
* the stateful runner (`server/app/runner.py`) becomes explicit state
  passing over a `RunnerState` record, with file-system effects (the
  runtime-config / status / history files) represented as fields;
* the retry loops and the scroll loop become fuel-indexed recursions
  whose fuel is the loop bound visible in the source.
-/
import Mathlib

namespace PhotoDownload

/-! ## String helpers

`takeUntil c l` is Python's `l.split(c)[0]`: the prefix of `l` strictly
before the first occurrence of `c` (all of `l` when `c` is absent).
`afterLast c l` is Python's `l.split(c)[-1]`: the suffix after the last
occurrence of `c` (all of `l` when `c` is absent). -/

def takeUntil (c : Char) : List Char → List Char
  | [] => []
  | x :: xs => if x = c then [] else x :: takeUntil c xs

def afterLast (c : Char) (l : List Char) : List Char :=
  (takeUntil c l.reverse).reverse

/-- Python's `str.strip()`: drop whitespace from both ends. -/
def pyStrip (s : String) : String :=
  ⟨((s.data.dropWhile Char.isWhitespace).reverse.dropWhile Char.isWhitespace).reverse⟩

/-! ## Fingerprint codec (`PhotoExtractor` in `photo_downloader.py`)

`_extract_filename_from_thumbnail` takes the thumbnail URL apart with
`split`; the only exceptions raised inside its `try` are the two explicit
`ValueError`s (empty URL, empty extracted name), both of which fall back
to a synthetic id built from the current time and the fallback index (or
a random number when no index is given).  Time and the random draw are
passed in as the explicit parameters `now` and `rand`. -/

def fallbackFingerprint (fallbackIndex : Option Nat) (now rand : Nat) : String :=
  match fallbackIndex with
  | some i => "fallback_" ++ toString now ++ "_" ++ toString i
  | none => "fallback_" ++ toString now ++ "_" ++ toString rand

def extractFilenameFromThumbnail (url : String) (fallbackIndex : Option Nat)
    (now rand : Nat) : String :=
  if url.data = [] then fallbackFingerprint fallbackIndex now rand
  else
    -- fix protocol-relative URL
    let u := if url.data.take 2 = ['/', '/'] then "https:".data ++ url.data else url.data
    -- strip the query string
    let path := takeUntil '?' u
    -- strip the CDN suffix (everything from the first '~') before the
    -- final path segment is taken
    let path2 := if '~' ∈ path then takeUntil '~' path else path
    -- last '/'-delimited segment
    let filename := afterLast '/' path2
    if filename = [] then fallbackFingerprint fallbackIndex now rand
    else ⟨filename⟩

/-- `PhotoExtractor._extract_filename_from_url`: takes the last
`'/'`-delimited segment first, then strips the query string, then cuts at
the first `'~'`. -/
def extractFilenameFromUrl (url : String) : String :=
  let filename := takeUntil '?' (afterLast '/' url.data)
  let filename2 := if '~' ∈ filename then takeUntil '~' filename else filename
  ⟨filename2⟩

/-! ## Dedup Store (`DownloadHistory` in `photo_downloader.py`)

The on-disk JSON file is modelled by `HistoryFileState`: the file may be
missing, unreadable (any exception while opening / JSON-parsing it, or a
non-object document), or parsed into an optional `version` field and an
optional `downloads` map.  The map is an association list keyed by
fingerprint. -/

structure DedupRecord where
  original_filename : String
  thumbnail_url : String
  download_time : String
  deriving DecidableEq, Repr

inductive HistoryFileState where
  | missing
  | unreadable
  | parsed (version : Option String) (downloads : Option (List (String × DedupRecord)))
  deriving DecidableEq, Repr

/-- `DownloadHistory._load_history`: a missing file keeps the store empty;
any exception is caught and resets the store; a `version` other than
`"2.0"` (a missing field reads as `"unknown"`) resets the store. -/
def load_history : HistoryFileState → List (String × DedupRecord)
  | .missing => []
  | .unreadable => []
  | .parsed version downloads =>
      if version.getD "unknown" ≠ "2.0" then []
      else downloads.getD []

/-- `DownloadHistory.is_downloaded_by_fingerprint`. -/
def is_downloaded_by_fingerprint (downloads : List (String × DedupRecord))
    (fingerprint : String) : Bool :=
  (downloads.lookup fingerprint).isSome

/-- `DownloadHistory.add_download_record`: dict assignment, overwriting any
entry already stored under the fingerprint. -/
def add_download_record (downloads : List (String × DedupRecord))
    (fingerprint original_filename thumbnail_url download_time : String) :
    List (String × DedupRecord) :=
  (fingerprint, ⟨original_filename, thumbnail_url, download_time⟩)
    :: downloads.filter (fun p => p.1 ≠ fingerprint)

/-! ## Scroll protocol (`scroll_to_load_all` in `photo_downloader.py`)

The loop scrolls, waits, then reads the item count; `counts n` is the
count observed after the `(n+1)`-th scroll.  State: `last` is the last
recorded count (updated only on strict growth), `sc` the number of scrolls
performed so far, `nc` the consecutive no-change counter.  The fuel is the
remaining number of iterations allowed by `MAX_SCROLL_ATTEMPTS`. -/

def scrollAux (counts : Nat → Nat) : Nat → Nat → Nat → Nat → Nat × Nat
  | 0, _last, sc, nc => (sc, nc)
  | fuel + 1, last, sc, nc =>
      let current := counts sc
      if current > last then
        scrollAux counts fuel current (sc + 1) 0
      else
        if nc + 1 ≥ 3 then (sc + 1, nc + 1)
        else scrollAux counts fuel last (sc + 1) (nc + 1)

/-- `scroll_to_load_all`: returns the final `(scroll_count, no_change_count)`
pair of the loop. -/
def scroll_to_load_all (counts : Nat → Nat) (maxScrollAttempts : Nat) : Nat × Nat :=
  scrollAux counts maxScrollAttempts 0 0 0

/-- The stall counter as the spec words it: track the item count across
iterations; a strictly increasing count resets the counter to 0, a
non-increasing count increments it.  `specStallCounter counts n` is the
`(tracked count, stall counter)` pair after `n` observations. -/
def specStallCounter (counts : Nat → Nat) : Nat → Nat × Nat
  | 0 => (0, 0)
  | n + 1 =>
      let p := specStallCounter counts n
      if counts n > p.1 then (counts n, 0) else (p.1, p.2 + 1)

/-! ## Byte fetcher and sink writer (`PhotoDownloader` in `photo_downloader.py`)

`download_photo` fetches with up to `MAX_DOWNLOAD_RETRIES` attempts, then,
when a Dropbox client is configured, uploads with the same retry ceiling
(returning `False` on upload failure), and finally — when `SAVE_TO_LOCAL`
is set — calls `_save_to_local`, whose boolean result is discarded.  The
world is a `PhotoEnv`: which fetch / upload attempts would succeed, and
whether the local write would succeed. -/

def retry_succeeds (results : Nat → Bool) : Nat → Nat → Bool
  | 0, _attempt => false
  | fuel + 1, attempt =>
      if results attempt then true else retry_succeeds results fuel (attempt + 1)

structure PhotoEnv where
  fetchAttemptOk : Nat → Bool
  uploadAttemptOk : Nat → Bool
  localSaveOk : Bool
  fingerprint : String
  filename : String
  thumbnail_url : String

/-- `PhotoDownloader.download_photo`.  The `localSaveOk` outcome of
`_save_to_local` is intentionally absent from the result: the source
discards it. -/
def download_photo (dropboxEnabled save_to_local : Bool) (maxRetries : Nat)
    (p : PhotoEnv) : Bool :=
  if retry_succeeds p.fetchAttemptOk maxRetries 1 then
    if dropboxEnabled then
      if retry_succeeds p.uploadAttemptOk maxRetries 1 then
        true
      else false
    else true
  else false

/-- Modelled from the spec: the sink-write step "fully succeeded" — every
enabled sink accepted the bytes. -/
def specSinkWriteFullySucceeded (dropboxEnabled save_to_local : Bool)
    (maxRetries : Nat) (p : PhotoEnv) : Bool :=
  (!dropboxEnabled || retry_succeeds p.uploadAttemptOk maxRetries 1) &&
  (!save_to_local || p.localSaveOk)

/-- Modelled from the spec: the bytes landed in at least one sink. -/
def specStoredAnywhere (dropboxEnabled save_to_local : Bool)
    (maxRetries : Nat) (p : PhotoEnv) : Bool :=
  (dropboxEnabled && retry_succeeds p.uploadAttemptOk maxRetries 1) ||
  (save_to_local && p.localSaveOk)

/-- The per-photo download loop of `Runner._run_cycle` (and step 4/5 of the
CLI `main`): on `download_photo` success the fingerprint is recorded via
`add_download_record` and the success counter incremented, otherwise the
failure counter is incremented.  Returns
`(downloads, success_count, fail_count)`. -/
def process_new_photos (dropboxEnabled save_to_local : Bool) (maxRetries : Nat)
    (now : String) :
    List PhotoEnv → List (String × DedupRecord) → Nat → Nat →
      List (String × DedupRecord) × Nat × Nat
  | [], downloads, successCount, failCount => (downloads, successCount, failCount)
  | p :: ps, downloads, successCount, failCount =>
      if download_photo dropboxEnabled save_to_local maxRetries p then
        process_new_photos dropboxEnabled save_to_local maxRetries now ps
          (add_download_record downloads p.fingerprint p.filename p.thumbnail_url now)
          (successCount + 1) failCount
      else
        process_new_photos dropboxEnabled save_to_local maxRetries now ps
          downloads successCount (failCount + 1)

/-! ## Cycle result assembly (`Runner._run_cycle`, lines 316–328) -/

structure CycleCounters where
  total_photos : Nat
  new_photos : Nat
  download_success : Nat
  download_failed : Nat
  dropbox_enabled : Bool
  dropbox_uploaded : Nat
  dropbox_failed : Nat
  history_size : Nat
  deriving DecidableEq, Repr

/-- The `result.update({...})` block at the end of a successful cycle. -/
def assemble_cycle_result (totalCount newCount successCount failCount : Nat)
    (dropboxClient : Bool) (historySize : Nat) : CycleCounters :=
  { total_photos := totalCount
    new_photos := newCount
    download_success := successCount
    download_failed := failCount
    dropbox_enabled := dropboxClient
    dropbox_uploaded := if dropboxClient then successCount else 0
    dropbox_failed := if dropboxClient then failCount else 0
    history_size := historySize }

/-! ## Runner state machine (`server/app/runner.py` and `server/app/state.py`)

`RunnerState` combines the in-memory `Runner` fields with the files owned
by the `StateManager`: `runtimeConfigFile` is `runtime-config.json`
(`none` = absent), `statusFile` is `status.json` (holding the loop index
of the last persisted cycle), `historyFile` is `history.jsonl` (the loop
indices appended so far).  A raw configuration dict carries the two string
fields (absent keys read as `""`) and `check_interval` as `some n` when
Python's `int(...)` coercion succeeds and `none` otherwise. -/

structure RawConfig where
  target_url : String
  dropbox_save_path : String
  check_interval : Option Int
  deriving DecidableEq, Repr

structure Config where
  target_url : String
  dropbox_save_path : String
  check_interval : Int
  deriving DecidableEq, Repr

/-- The JSON document `StateManager.save_runtime_config` writes for a
normalized config, as read back by `load_runtime_config`. -/
def rawOfConfig (cfg : Config) : RawConfig :=
  ⟨cfg.target_url, cfg.dropbox_save_path, some cfg.check_interval⟩

/-- `Runner._normalize_config`: a falsy argument (`None` or the empty dict
returned for a missing runtime-config file) is rejected; then the stripped
target URL, the stripped Dropbox path and the positivity of the interval
(with failed `int(...)` coercion read as 0) are validated in order.  Each
`raise` happens before any `Runner` field is assigned. -/
def normalize_config : Option RawConfig → Except String Config
  | none => .error "缺少运行配置"
  | some r =>
      let target_url := pyStrip r.target_url
      let dropbox_path := pyStrip r.dropbox_save_path
      let interval := r.check_interval.getD 0
      if target_url = "" then .error "目标 URL 不能为空"
      else if dropbox_path = "" then .error "Dropbox 路径不能为空"
      else if interval ≤ 0 then .error "检查间隔必须大于 0"
      else .ok ⟨target_url, dropbox_path, interval⟩

structure RunnerState where
  running : Bool
  activeConfig : Option Config
  runtimeConfigFile : Option RawConfig
  statusFile : Option Nat
  historyFile : List Nat
  loopIndex : Nat
  cleared : Bool
  deriving DecidableEq, Repr

/-- One `Runner._run_cycle` invocation, abstracted to its bookkeeping
footprint: the loop index is incremented and the cycle summary is
persisted to the status file and appended to the history file. -/
def run_cycle_abstract (s : RunnerState) : RunnerState :=
  { s with
    loopIndex := s.loopIndex + 1
    statusFile := some (s.loopIndex + 1)
    historyFile := s.historyFile ++ [s.loopIndex + 1] }

/-- `Runner.start`: no-op returning `False` while running; with an override
the config is activated and persisted, otherwise the stored runtime config
is loaded and activated without re-persisting; then the loop task is
scheduled. -/
def start (s : RunnerState) (config_override : Option RawConfig) :
    RunnerState × Except String Bool :=
  if s.running then (s, .ok false)
  else
    match config_override with
    | some r =>
        match normalize_config (some r) with
        | .error e => (s, .error e)
        | .ok cfg =>
            ({ s with
                activeConfig := some cfg
                runtimeConfigFile := some (rawOfConfig cfg)
                running := true }, .ok true)
    | none =>
        match normalize_config s.runtimeConfigFile with
        | .error e => (s, .error e)
        | .ok cfg =>
            ({ s with activeConfig := some cfg, running := true }, .ok true)

/-- `Runner.stop`: when no loop is active it returns `False` — but it still
sets `_active_config = None` and calls `clear_runtime_config()` (deleting
the persisted snapshot) before returning.  When a loop is active it signals
the stop event, awaits the task, and performs the same clearing. -/
def stop (s : RunnerState) : RunnerState × Bool :=
  if ¬ s.running then
    ({ s with activeConfig := none, runtimeConfigFile := none }, false)
  else
    ({ s with running := false, activeConfig := none, runtimeConfigFile := none },
      true)

/-- `Runner.run_once`: activates (and persists) the override, runs one
cycle under the lock, and in the `finally` block clears the active config
and the persisted snapshot.  The returned value is the loop index of the
executed cycle.  Note the method itself performs no `is_running` check. -/
def run_once (s : RunnerState) (config_override : Option RawConfig) :
    RunnerState × Except String Nat :=
  match normalize_config config_override with
  | .error e => (s, .error e)
  | .ok cfg =>
      let s1 := { s with
        activeConfig := some cfg
        runtimeConfigFile := some (rawOfConfig cfg) }
      let s2 := run_cycle_abstract s1
      ({ s2 with activeConfig := none, runtimeConfigFile := none }, .ok s2.loopIndex)

/-- `_parse_config_payload` in `server/app/api.py` (its own copy of the
validation, in the order target / interval / path). -/
def parse_config_payload : Option RawConfig → Except String Config
  | none => .error "缺少配置参数"
  | some r =>
      let target_url := pyStrip r.target_url
      let dropbox_path := pyStrip r.dropbox_save_path
      let interval := r.check_interval.getD 0
      if target_url = "" then .error "target_url 为必填"
      else if interval ≤ 0 then .error "check_interval 需为正整数"
      else if dropbox_path = "" then .error "dropbox_save_path 为必填"
      else .ok ⟨target_url, dropbox_path, interval⟩

/-- The `/api/control/run-once` endpoint: rejects while the runner is
running, then parses the payload, then delegates to `Runner.run_once`
with the parsed dict. -/
def api_run_once (s : RunnerState) (payload : Option RawConfig) :
    RunnerState × Except String Nat :=
  if s.running then (s, .error "monitor is running，请先停止循环")
  else
    match parse_config_payload payload with
    | .error e => (s, .error e)
    | .ok cfg => run_once s (some (rawOfConfig cfg))

/-- The invalid-configuration conditions of claim C9: empty target URL,
empty Dropbox path, or a check interval that is not a positive integer. -/
def invalid_raw (r : RawConfig) : Prop :=
  pyStrip r.target_url = "" ∨ pyStrip r.dropbox_save_path = "" ∨
    r.check_interval.getD 0 ≤ 0

/-! ## The two continuous loops

`runner_loop` is `Runner._loop`: before each cycle only the stop event is
consulted; the cycle's result — its `success` flag included — is awaited
and discarded, so the iteration count is bounded only by the stop signal
(`fuel` merely truncates the observation window).  `k` counts the cycles
attempted so far.

`cli_main_loop` is the `while True` loop of `main` in
`photo_downloader.py`.  Each iteration's body either succeeds
(`connection_failures` reset to 0 early in the body and never bumped),
raises before that reset (`failEarly`, e.g. page navigation failure:
`connection_failures += 1`), or raises after it (`failLate`:
the reset followed by the increment leaves the counter at 1).  When the
counter reaches `MAX_CONNECTION_FAILURES` the loop breaks. -/

def runner_loop (cycleSuccess : Nat → Bool) (stopRequested : Nat → Bool) :
    Nat → Nat → Nat
  | 0, k => k
  | fuel + 1, k =>
      if stopRequested k then k
      else runner_loop cycleSuccess stopRequested fuel (k + 1)

inductive CliOutcome where
  | success
  | failEarly
  | failLate
  deriving DecidableEq, Repr

def cli_main_loop (outcomes : Nat → CliOutcome) (maxFailures : Nat) :
    Nat → Nat → Nat → Nat
  | 0, k, _cf => k
  | fuel + 1, k, cf =>
      match outcomes k with
      | .success => cli_main_loop outcomes maxFailures fuel (k + 1) 0
      | .failLate =>
          if 1 ≥ maxFailures then k + 1
          else cli_main_loop outcomes maxFailures fuel (k + 1) 1
      | .failEarly =>
          if cf + 1 ≥ maxFailures then k + 1
          else cli_main_loop outcomes maxFailures fuel (k + 1) (cf + 1)

/-! ## Supporting lemmas on `takeUntil` / `afterLast` -/

theorem takeUntil_of_not_mem (c : Char) (l : List Char) (h : c ∉ l) :
    takeUntil c l = l := by
  induction l with
  | nil => rfl
  | cons x xs ih =>
      rw [takeUntil,
        if_neg (fun hx => h (by rw [← hx]; exact List.mem_cons_self x xs)),
        ih (fun hm => h (List.mem_cons_of_mem x hm))]

theorem takeUntil_append_left (c : Char) (a b : List Char) (h : c ∉ a) :
    takeUntil c (a ++ b) = a ++ takeUntil c b := by
  induction a with
  | nil => simp
  | cons x xs ih =>
      rw [List.cons_append, takeUntil,
        if_neg (fun hx => h (by rw [← hx]; exact List.mem_cons_self x xs)),
        ih (fun hm => h (List.mem_cons_of_mem x hm)), List.cons_append]

theorem mem_of_mem_takeUntil {x c : Char} {l : List Char}
    (h : x ∈ takeUntil c l) : x ∈ l := by
  induction l with
  | nil => simp [takeUntil] at h
  | cons y ys ih =>
      rw [takeUntil] at h
      by_cases hy : y = c
      · rw [if_pos hy] at h; cases h
      · rw [if_neg hy] at h
        rcases List.mem_cons.mp h with h1 | h2
        · exact h1 ▸ List.mem_cons_self _ _
        · exact List.mem_cons_of_mem _ (ih h2)

theorem afterLast_append_right (c : Char) (a b : List Char) (h : c ∉ b) :
    afterLast c (a ++ b) = afterLast c a ++ b := by
  unfold afterLast
  rw [List.reverse_append,
    takeUntil_append_left c b.reverse a.reverse (by simpa using h),
    List.reverse_append, List.reverse_reverse]

theorem mem_of_mem_afterLast {x c : Char} {l : List Char}
    (h : x ∈ afterLast c l) : x ∈ l := by
  unfold afterLast at h
  rw [List.mem_reverse] at h
  simpa [List.mem_reverse] using mem_of_mem_takeUntil h

theorem cond_takeUntil (c : Char) (l : List Char) :
    (if c ∈ l then takeUntil c l else l) = takeUntil c l := by
  by_cases h : c ∈ l
  · rw [if_pos h]
  · rw [if_neg h, takeUntil_of_not_mem c l h]

theorem fallbackFingerprint_ne_empty (idx : Option Nat) (now rand : Nat) :
    fallbackFingerprint idx now rand ≠ "" := by
  cases idx <;>
    · intro h
      have := congrArg String.data h
      simp [fallbackFingerprint, String.data_append] at this

/-! ## Claim C8 -/

/-- C8: on the spec's concrete inputs the fingerprint function returns
`"9T1A01.jpg"` for the protocol-relative tilde-suffixed URL, `"img.png"`
for the query-suffixed URL, and for the empty string a non-empty
synthetic fallback of the form `fallback_<time>_<index>` when an index is
given (and `fallback_<time>_<random>` otherwise), never empty. -/
theorem c8_fingerprint_concrete_values :
    (∀ idx now rand,
        extractFilenameFromThumbnail "//a.cdn/x/9T1A01.jpg~tplv-foo/bar.avif"
          idx now rand = "9T1A01.jpg") ∧
    (∀ idx now rand,
        extractFilenameFromThumbnail "https://a.cdn/x/img.png?sig=123"
          idx now rand = "img.png") ∧
    (∀ now rand i,
        extractFilenameFromThumbnail "" (some i) now rand
          = "fallback_" ++ toString now ++ "_" ++ toString i) ∧
    (∀ now rand,
        extractFilenameFromThumbnail "" none now rand
          = "fallback_" ++ toString now ++ "_" ++ toString rand) ∧
    (∀ idx now rand, extractFilenameFromThumbnail "" idx now rand ≠ "") := by
  refine ⟨fun idx now rand => rfl, fun idx now rand => rfl,
    fun now rand i => rfl, fun now rand => rfl, fun idx now rand => ?_⟩
  have : extractFilenameFromThumbnail "" idx now rand
      = fallbackFingerprint idx now rand := rfl
  rw [this]
  exact fallbackFingerprint_ne_empty idx now rand

/-! ## Claim C2 -/

/-- C2 counterexample: `"https://a.cdn/x/9T1A01.jpg~tplv-foo/bar.avif"`
does not start with `"//"`, its thumbnail fingerprint is `"9T1A01.jpg"`,
but `_extract_filename_from_url` — which takes the last `'/'`-segment
before stripping the `'~'` suffix — returns `"bar.avif"`: the two
extraction rules are not the same and disagree here. -/
theorem c2_counterexample :
    "https://a.cdn/x/9T1A01.jpg~tplv-foo/bar.avif".data.take 2 ≠ ['/', '/'] ∧
    extractFilenameFromThumbnail "https://a.cdn/x/9T1A01.jpg~tplv-foo/bar.avif"
      none 0 0 = "9T1A01.jpg" ∧
    extractFilenameFromUrl "https://a.cdn/x/9T1A01.jpg~tplv-foo/bar.avif"
      = "bar.avif" ∧
    extractFilenameFromUrl "https://a.cdn/x/9T1A01.jpg~tplv-foo/bar.avif"
      ≠ extractFilenameFromThumbnail "https://a.cdn/x/9T1A01.jpg~tplv-foo/bar.avif"
          none 0 0 := by
  refine ⟨by decide, by decide, by decide, by decide⟩

/-- C2 (amended): the two extraction rules agree on a resolved URL `a ++ b`
not starting with `"//"` provided every `'/'` of the URL occurs before its
first `'?'` and before its first `'~'` (split the URL as `a ++ b` with no
`'?'`/`'~'` in `a` and no `'/'` in `b`) and the extracted segment is
non-empty; in general they differ, because `_extract_filename_from_url`
takes the final `'/'`-segment before the query- and tilde-strips. -/
theorem c2_amended_agreement (a b : List Char) (idx : Option Nat) (now rand : Nat)
    (ha1 : '?' ∉ a) (ha2 : '~' ∉ a) (hb : '/' ∉ b)
    (hpre : (a ++ b).take 2 ≠ ['/', '/'])
    (hres : afterLast '/' (takeUntil '~' (takeUntil '?' (a ++ b))) ≠ []) :
    extractFilenameFromUrl ⟨a ++ b⟩
      = extractFilenameFromThumbnail ⟨a ++ b⟩ idx now rand := by
  have hq : takeUntil '?' (a ++ b) = a ++ takeUntil '?' b :=
    takeUntil_append_left '?' a b ha1
  have ht : takeUntil '~' (a ++ takeUntil '?' b)
      = a ++ takeUntil '~' (takeUntil '?' b) :=
    takeUntil_append_left '~' a (takeUntil '?' b) ha2
  have htb : '/' ∉ takeUntil '~' (takeUntil '?' b) :=
    fun hm => hb (mem_of_mem_takeUntil (mem_of_mem_takeUntil hm))
  have hfin : afterLast '/' (a ++ takeUntil '~' (takeUntil '?' b))
      = afterLast '/' a ++ takeUntil '~' (takeUntil '?' b) :=
    afterLast_append_right '/' a (takeUntil '~' (takeUntil '?' b)) htb
  have hres' : afterLast '/' a ++ takeUntil '~' (takeUntil '?' b) ≠ [] := by
    rw [hq, ht, hfin] at hres; exact hres
  have hab : a ++ b ≠ [] := by
    intro h
    rcases List.append_eq_nil.mp h with ⟨h1, h2⟩
    subst h1; subst h2
    simp [afterLast, takeUntil] at hres'
  -- the resolved-URL side
  have hAq : '?' ∉ afterLast '/' a := fun hm => ha1 (mem_of_mem_afterLast hm)
  have hAt : '~' ∉ afterLast '/' a := fun hm => ha2 (mem_of_mem_afterLast hm)
  have hurl : extractFilenameFromUrl ⟨a ++ b⟩
      = ⟨afterLast '/' a ++ takeUntil '~' (takeUntil '?' b)⟩ := by
    simp only [extractFilenameFromUrl]
    rw [afterLast_append_right '/' a b hb,
      takeUntil_append_left '?' (afterLast '/' a) b hAq, cond_takeUntil,
      takeUntil_append_left '~' (afterLast '/' a) (takeUntil '?' b) hAt]
  -- the thumbnail side
  have hthumb : extractFilenameFromThumbnail ⟨a ++ b⟩ idx now rand
      = ⟨afterLast '/' a ++ takeUntil '~' (takeUntil '?' b)⟩ := by
    simp only [extractFilenameFromThumbnail]
    rw [if_neg hab, if_neg hpre, cond_takeUntil, hq, ht, hfin, if_neg hres']
  rw [hurl, hthumb]

def c2Head : List Char := "https://a.cdn/x/".data

def c2Tail : List Char := "img.png?sig=123".data

/-- C2 amended witness: the side conditions hold for
`"https://a.cdn/x/img.png?sig=123"` split after the final slash, and both
extractions agree there. -/
theorem c2_amended_agreement_witness :
    extractFilenameFromUrl ⟨c2Head ++ c2Tail⟩
      = extractFilenameFromThumbnail ⟨c2Head ++ c2Tail⟩ none 0 0 :=
  c2_amended_agreement c2Head c2Tail none 0 0 (by decide) (by decide) (by decide)
    (by decide) (by decide)

/-! ## Claim C6 -/

/-- C6: loading the Dedup Store file yields the empty store whenever the
file is missing, its content is unreadable, or its `version` field is
missing or differs from `"2.0"`; `load_history` is a total function, so no
case raises. -/
theorem c6_load_history_soft_reset :
    load_history .missing = [] ∧
    load_history .unreadable = [] ∧
    (∀ v d, v ≠ some "2.0" → load_history (.parsed v d) = []) := by
  refine ⟨rfl, rfl, fun v d hv => ?_⟩
  cases v with
  | none => simp [load_history]
  | some s =>
      have hs : s ≠ "2.0" := fun h => hv (by rw [h])
      simp [load_history, hs]

/-- C6 witness: a store file carrying version `"1.0"` and a non-empty
downloads map loads as the empty store. -/
theorem c6_load_history_soft_reset_witness :
    load_history (.parsed (some "1.0")
      (some [("1060536x354blur2.jpg", ⟨"a.jpg", "//pb.cdn/t.jpg", "2025-11-17 10:30:00"⟩)]))
      = [] :=
  c6_load_history_soft_reset.2.2 (some "1.0") _ (by decide)

/-! ## Claim C1 -/

/-- `download_photo` as a boolean formula: success exactly when the fetch
retry loop succeeds and, if the Dropbox client is configured, the upload
retry loop succeeds.  The local-save outcome never enters the result. -/
theorem download_photo_eq_formula (d s : Bool) (m : Nat) (p : PhotoEnv) :
    download_photo d s m p
      = (retry_succeeds p.fetchAttemptOk m 1 &&
         (!d || retry_succeeds p.uploadAttemptOk m 1)) := by
  cases hf : retry_succeeds p.fetchAttemptOk m 1 <;> cases d <;>
    cases hu : retry_succeeds p.uploadAttemptOk m 1 <;>
      simp [download_photo, hf, hu]

def c1Photo : PhotoEnv :=
  ⟨fun _ => true, fun _ => true, false, "1060536x354blur2.jpg", "2:30721.jpg",
    "//pb.cdn/1060536x354blur2.jpg~tplv-x"⟩

/-- C1 counterexample: with Dropbox disabled, local saving enabled and the
local write failing, the fetch succeeds, no sink stores the bytes — yet
`download_photo` reports success and the cycle records the fingerprint in
the Dedup Store (`is_known` becomes true for an item that was fetched but
not stored). -/
theorem c1_counterexample :
    download_photo false true 5 c1Photo = true ∧
    retry_succeeds c1Photo.fetchAttemptOk 5 1 = true ∧
    specStoredAnywhere false true 5 c1Photo = false ∧
    specSinkWriteFullySucceeded false true 5 c1Photo = false ∧
    is_downloaded_by_fingerprint
      (process_new_photos false true 5 "2025-11-17 10:30:00" [c1Photo] [] 0 0).1
      "1060536x354blur2.jpg" = true := by
  refine ⟨by decide, by decide, by decide, by decide, by decide⟩

/-- C1 (amended): a DedupRecord is created for an item exactly when the
fetch succeeded and, whenever the cloud sink is enabled, the upload
succeeded; the best-effort local write is never consulted, so its failure
does not prevent the record. -/
theorem c1_amended_record_condition (dropboxEnabled save_to_local : Bool)
    (maxRetries : Nat) (p : PhotoEnv) (now : String)
    (downloads : List (String × DedupRecord))
    (h : is_downloaded_by_fingerprint downloads p.fingerprint = false) :
    is_downloaded_by_fingerprint
        (process_new_photos dropboxEnabled save_to_local maxRetries now
          [p] downloads 0 0).1 p.fingerprint
      = (retry_succeeds p.fetchAttemptOk maxRetries 1 &&
         (!dropboxEnabled || retry_succeeds p.uploadAttemptOk maxRetries 1)) := by
  rw [← download_photo_eq_formula dropboxEnabled save_to_local]
  cases hd : download_photo dropboxEnabled save_to_local maxRetries p with
  | false => simpa [process_new_photos, hd] using h
  | true =>
      simp [process_new_photos, hd, is_downloaded_by_fingerprint,
        add_download_record, List.lookup]

/-- C1 amended witness: with an empty store, Dropbox enabled and both
retry loops succeeding, the record condition evaluates to true. -/
theorem c1_amended_record_condition_witness :
    is_downloaded_by_fingerprint
        (process_new_photos true true 5 "2025-11-17 10:30:00" [c1Photo] [] 0 0).1
        c1Photo.fingerprint
      = (retry_succeeds c1Photo.fetchAttemptOk 5 1 &&
         (!true || retry_succeeds c1Photo.uploadAttemptOk 5 1)) :=
  c1_amended_record_condition true true 5 c1Photo "2025-11-17 10:30:00" [] (by decide)

/-! ## Claim C10 -/

/-- C10: in the cycle summary assembled with the cloud sink enabled, the
sink-specific counters coincide with the overall ones
(`dropbox_uploaded = download_success`, `dropbox_failed = download_failed`),
and an item whose fetch retry loop failed — which therefore never reached
the upload step — still makes `download_photo` false, i.e. is counted
among the failures mirrored into `dropbox_failed`. -/
theorem c10_dropbox_counters_mirror (total newCount s f historySize : Nat) :
    (assemble_cycle_result total newCount s f true historySize).dropbox_uploaded
      = (assemble_cycle_result total newCount s f true historySize).download_success ∧
    (assemble_cycle_result total newCount s f true historySize).dropbox_failed
      = (assemble_cycle_result total newCount s f true historySize).download_failed ∧
    (∀ (save_to_local : Bool) (maxRetries : Nat) (p : PhotoEnv),
        retry_succeeds p.fetchAttemptOk maxRetries 1 = false →
        download_photo true save_to_local maxRetries p = false) := by
  refine ⟨rfl, rfl, fun save_to_local maxRetries p hp => ?_⟩
  simp [download_photo, hp]

def c10FetchFail : PhotoEnv :=
  ⟨fun _ => false, fun _ => true, true, "fp", "f.jpg", "t"⟩

/-- C10 witness: the mirrored counters at concrete counts, and a photo
whose every fetch attempt fails is a `download_photo` failure. -/
theorem c10_dropbox_counters_mirror_witness :
    (assemble_cycle_result 7 3 2 1 true 9).dropbox_uploaded
      = (assemble_cycle_result 7 3 2 1 true 9).download_success ∧
    download_photo true true 5 c10FetchFail = false := by
  have h := c10_dropbox_counters_mirror 7 3 2 1 9
  exact ⟨h.1, h.2.2 true 5 c10FetchFail (by decide)⟩

/-! ## Claim C4 -/

def c4StoredRaw : RawConfig :=
  ⟨"https://live.example.org/live/pc/1/#/live", "/PhotoPlus/photos", some 60⟩

def c4IdleState : RunnerState :=
  { running := false
    activeConfig := none
    runtimeConfigFile := some c4StoredRaw
    statusFile := some 1
    historyFile := [1]
    loopIndex := 1
    cleared := false }

/-- C4 counterexample: a Runner that is idle but still has a persisted
runtime-config snapshot (e.g. after a process restart during a configured
loop).  `stop()` on this state is not a no-op: it deletes the
runtime-config file, so the state after the call differs from the state
before it. -/
theorem c4_counterexample :
    c4IdleState.running = false ∧ (stop c4IdleState).1 ≠ c4IdleState := by
  refine ⟨rfl, by decide⟩

/-- C4 (amended): `stop()` while idle returns `False` and leaves the
status file, history file, loop index and cleared flag untouched, but it
clears the in-memory active config and deletes the persisted
runtime-config snapshot rather than leaving them as they were. -/
theorem c4_amended_stop_idle (s : RunnerState) (h : s.running = false) :
    stop s = ({ s with activeConfig := none, runtimeConfigFile := none }, false) := by
  simp [stop, h]

/-- C4 amended witness: the amended description at the concrete idle
state. -/
theorem c4_amended_stop_idle_witness :
    stop c4IdleState
      = ({ c4IdleState with activeConfig := none, runtimeConfigFile := none },
          false) :=
  c4_amended_stop_idle c4IdleState rfl

/-! ## Claim C5 -/

/-- C5: the run-once operation, invoked through its API entry point while
the continuous loop is active, is rejected with an error before any
configuration parsing or cycle execution: the state — the loop index
(cycle counter) and every persisted file included — is returned unchanged. -/
theorem c5_run_once_rejected_while_running (s : RunnerState)
    (payload : Option RawConfig) (h : s.running = true) :
    api_run_once s payload = (s, .error "monitor is running，请先停止循环") := by
  simp [api_run_once, h]

def c5RunningState : RunnerState :=
  { running := true
    activeConfig := some ⟨"https://live.example.org/x", "/PhotoPlus/photos", 60⟩
    runtimeConfigFile := some ⟨"https://live.example.org/x", "/PhotoPlus/photos", some 60⟩
    statusFile := some 3
    historyFile := [1, 2, 3]
    loopIndex := 3
    cleared := true }

/-- C5 witness: a run-once request against a running loop returns the
rejection and the untouched state. -/
theorem c5_run_once_rejected_while_running_witness :
    api_run_once c5RunningState
        (some ⟨"https://other.example.org", "/Other", some 5⟩)
      = (c5RunningState, .error "monitor is running，请先停止循环") :=
  c5_run_once_rejected_while_running c5RunningState _ rfl

/-! ## Claim C9 -/

/-- C9: an invalid configuration (empty target URL, empty Dropbox path, or
a check interval that is not a positive integer) makes `start` and
`run_once` raise the validation error before the active config is assigned
and before the runtime-config snapshot is written: the returned state is
exactly the input state. -/
theorem c9_invalid_config_preserves_state (s : RunnerState) (r : RawConfig)
    (hinv : invalid_raw r) (hidle : s.running = false) :
    (start s (some r)).1 = s ∧
    (∃ e, (start s (some r)).2 = .error e) ∧
    (run_once s (some r)).1 = s ∧
    (∃ e, (run_once s (some r)).2 = .error e) := by
  have herr : ∃ e, normalize_config (some r) = Except.error e := by
    by_cases ht : pyStrip r.target_url = ""
    · exact ⟨"目标 URL 不能为空", by simp [normalize_config, ht]⟩
    · by_cases hp : pyStrip r.dropbox_save_path = ""
      · exact ⟨"Dropbox 路径不能为空", by simp [normalize_config, ht, hp]⟩
      · rcases hinv with h | h | h
        · exact absurd h ht
        · exact absurd h hp
        · exact ⟨"检查间隔必须大于 0", by simp [normalize_config, ht, hp, h]⟩
  obtain ⟨e, he⟩ := herr
  refine ⟨?_, ⟨e, ?_⟩, ?_, ⟨e, ?_⟩⟩ <;> simp [start, run_once, hidle, he]

def c9IdleState : RunnerState :=
  { running := false
    activeConfig := none
    runtimeConfigFile := none
    statusFile := none
    historyFile := []
    loopIndex := 0
    cleared := false }

/-- C9 witness: a config whose target URL strips to empty is rejected by
both entry points with the state unchanged. -/
theorem c9_invalid_config_preserves_state_witness :
    (start c9IdleState (some ⟨"   ", "/PhotoPlus/photos", some 60⟩)).1
        = c9IdleState ∧
    (run_once c9IdleState (some ⟨"   ", "/PhotoPlus/photos", some 60⟩)).1
        = c9IdleState := by
  have h := c9_invalid_config_preserves_state c9IdleState
    ⟨"   ", "/PhotoPlus/photos", some 60⟩ (Or.inl (by decide)) rfl
  exact ⟨h.1, h.2.2.1⟩

/-! ## Claim C3 -/

/-- C3 counterexample: the server's continuous loop (`Runner._loop`)
consults only the stop event — the cycle results, their `success` flags
included, are discarded.  With every cycle failing and no stop requested it
attempts an 11th cycle after 10 consecutive failures (10 being the default
`MAX_CONNECTION_FAILURES` ceiling, which this loop never reads). -/
theorem c3_counterexample :
    runner_loop (fun _ => false) (fun _ => false) 11 0 = 11 := by decide

/-- Invariant proof for the CLI loop's consecutive-failure ceiling: if the
`maxFailures` cycles starting at `k` all raise before the in-body counter
reset, the loop never attempts a cycle beyond index `k + maxFailures - 1`,
whatever happened before `k` and whatever the fuel. -/
theorem cli_main_loop_bound (outcomes : Nat → CliOutcome) (maxFailures k : Nat)
    (hN : 0 < maxFailures)
    (hwin : ∀ i, i < maxFailures → outcomes (k + i) = CliOutcome.failEarly) :
    ∀ fuel j cf, (k ≤ j → j - k ≤ cf) → cf < maxFailures →
      cli_main_loop outcomes maxFailures fuel j cf ≤ k + maxFailures := by
  intro fuel
  induction fuel with
  | zero =>
      intro j cf hjk hcf
      simp only [cli_main_loop]
      by_cases h : k ≤ j
      · have := hjk h; omega
      · omega
  | succ fuel ih =>
      intro j cf hjk hcf
      have hnotwin : ∀ (_ : k ≤ j), outcomes j = CliOutcome.failEarly := by
        intro h
        have hj2 : j - k < maxFailures := lt_of_le_of_lt (hjk h) hcf
        have := hwin (j - k) hj2
        rwa [Nat.add_sub_cancel' h] at this
      cases ho : outcomes j with
      | success =>
          have hj : ¬ k ≤ j := by
            intro h
            have := hnotwin h
            rw [ho] at this
            cases this
          simp only [cli_main_loop, ho]
          exact ih (j + 1) 0 (by omega) hN
      | failLate =>
          have hj : ¬ k ≤ j := by
            intro h
            have := hnotwin h
            rw [ho] at this
            cases this
          simp only [cli_main_loop, ho]
          by_cases h1 : 1 ≥ maxFailures
          · rw [if_pos h1]; omega
          · rw [if_neg h1]
            exact ih (j + 1) 1 (by omega) (by omega)
      | failEarly =>
          simp only [cli_main_loop, ho]
          by_cases hstop : cf + 1 ≥ maxFailures
          · rw [if_pos hstop]
            by_cases h : k ≤ j
            · have := hjk h; omega
            · omega
          · rw [if_neg hstop]
            refine ih (j + 1) (cf + 1) (fun h => ?_) (by omega)
            by_cases h2 : k ≤ j
            · have := hjk h2; omega
            · omega

/-- C3 (amended): only the CLI's continuous loop (`main` in
`photo_downloader.py`) has a consecutive-failure ceiling, and it counts
failures raised before the in-body counter reset (page-navigation
failures): after `maxFailures` such consecutive failures it never attempts
a further cycle.  The server's continuous loop has no ceiling
(`c3_counterexample`), and a one-shot run executes exactly one cycle, so
no ceiling applies to it. -/
theorem c3_amended_cli_ceiling (outcomes : Nat → CliOutcome)
    (maxFailures k fuel : Nat) (hN : 0 < maxFailures)
    (hwin : ∀ i, i < maxFailures → outcomes (k + i) = CliOutcome.failEarly)
    (s : RunnerState) (r : RawConfig) (cfg : Config)
    (hok : normalize_config (some r) = .ok cfg) :
    cli_main_loop outcomes maxFailures fuel 0 0 ≤ k + maxFailures ∧
    ((run_once s (some r)).1).loopIndex = s.loopIndex + 1 := by
  constructor
  · exact cli_main_loop_bound outcomes maxFailures k hN hwin fuel 0 0
      (fun _ => by omega) hN
  · simp [run_once, hok, run_cycle_abstract]

def c3Raw : RawConfig :=
  ⟨"https://live.example.org/live/pc/1/#/live", "/PhotoPlus/photos", some 60⟩

def c3IdleState : RunnerState :=
  { running := false
    activeConfig := none
    runtimeConfigFile := none
    statusFile := none
    historyFile := []
    loopIndex := 4
    cleared := false }

/-- C3 amended witness: with every cycle failing before the counter reset
and a ceiling of 2, the CLI loop attempts at most 2 cycles in a 10-cycle
window; a valid one-shot run increments the cycle counter by exactly 1. -/
theorem c3_amended_cli_ceiling_witness :
    cli_main_loop (fun _ => CliOutcome.failEarly) 2 10 0 0 ≤ 0 + 2 ∧
    ((run_once c3IdleState (some c3Raw)).1).loopIndex = c3IdleState.loopIndex + 1 :=
  c3_amended_cli_ceiling (fun _ => CliOutcome.failEarly) 2 0 10 (by decide)
    (fun i _ => rfl) c3IdleState c3Raw
    ⟨"https://live.example.org/live/pc/1/#/live", "/PhotoPlus/photos", 60⟩ rfl

/-! ## Supporting lemma on the scroll loop -/

/-- Invariant proof for the scroll loop: started at scroll count `sc` with
the tracked count and stall counter agreeing with `specStallCounter` and
the stall counter still below 3, the loop stops at the first observation
index at which the stall counter reaches 3, unless the fuel
(`MAX_SCROLL_ATTEMPTS - sc`) runs out first. -/
theorem scrollAux_spec (counts : Nat → Nat) :
    ∀ (fuel last sc nc : Nat),
      specStallCounter counts sc = (last, nc) → nc < 3 →
      sc ≤ (scrollAux counts fuel last sc nc).1 ∧
      (scrollAux counts fuel last sc nc).1 ≤ sc + fuel ∧
      (∀ n, sc ≤ n → n < (scrollAux counts fuel last sc nc).1 →
          (specStallCounter counts n).2 < 3) ∧
      (scrollAux counts fuel last sc nc).2
        = (specStallCounter counts (scrollAux counts fuel last sc nc).1).2 ∧
      ((scrollAux counts fuel last sc nc).1 < sc + fuel →
          (scrollAux counts fuel last sc nc).2 = 3) := by
  intro fuel
  induction fuel with
  | zero =>
      intro last sc nc hspec hnc
      simp only [scrollAux]
      refine ⟨le_refl sc, by omega, fun n h1 h2 => by omega, ?_, by omega⟩
      rw [hspec]
  | succ fuel ih =>
      intro last sc nc hspec hnc
      by_cases hc : counts sc > last
      · have hspec1 : specStallCounter counts (sc + 1) = (counts sc, 0) := by
          simp only [specStallCounter, hspec]
          rw [if_pos hc]
        have h := ih (counts sc) (sc + 1) 0 hspec1 (by omega)
        simp only [scrollAux]
        rw [if_pos hc]
        refine ⟨by omega, by omega, fun n h1 h2 => ?_, h.2.2.2.1, fun hlt => ?_⟩
        · rcases Nat.eq_or_lt_of_le h1 with h1 | h1
          · rw [← h1, hspec]; exact hnc
          · exact h.2.2.1 n h1 h2
        · exact h.2.2.2.2 (by omega)
      · have hspec1 : specStallCounter counts (sc + 1) = (last, nc + 1) := by
          simp only [specStallCounter, hspec]
          rw [if_neg hc]
        by_cases h3 : nc + 1 ≥ 3
        · simp only [scrollAux]
          rw [if_neg hc, if_pos h3]
          refine ⟨by omega, by omega, fun n h1 h2 => ?_, ?_, fun _ => by omega⟩
          · have hn : n = sc := by omega
            rw [hn, hspec]; exact hnc
          · rw [hspec1]
        · have h := ih last (sc + 1) (nc + 1) hspec1 (by omega)
          simp only [scrollAux]
          rw [if_neg hc, if_neg h3]
          refine ⟨by omega, by omega, fun n h1 h2 => ?_, h.2.2.2.1, fun hlt => ?_⟩
          · rcases Nat.eq_or_lt_of_le h1 with h1 | h1
            · rw [← h1, hspec]; exact hnc
            · exact h.2.2.1 n h1 h2
          · exact h.2.2.2.2 (by omega)

/-! ## Claim C7 -/

/-- C7: the scroll loop stops exactly when the stall counter — reset to 0
by a strictly increasing item count, incremented by a non-increasing one —
reaches 3, or when the iteration count reaches `MAX_SCROLL_ATTEMPTS`,
whichever comes first: the loop performs at most `maxScrollAttempts`
scrolls, at every earlier observation the stall counter was still below 3,
the loop's own counter agrees with `specStallCounter` at the stopping
point, and a stop before the cap happens exactly at stall value 3. -/
theorem c7_scroll_stop_condition (counts : Nat → Nat) (maxScrollAttempts : Nat) :
    (scroll_to_load_all counts maxScrollAttempts).1 ≤ maxScrollAttempts ∧
    (∀ n, n < (scroll_to_load_all counts maxScrollAttempts).1 →
        (specStallCounter counts n).2 < 3) ∧
    (scroll_to_load_all counts maxScrollAttempts).2
      = (specStallCounter counts (scroll_to_load_all counts maxScrollAttempts).1).2 ∧
    ((scroll_to_load_all counts maxScrollAttempts).1 < maxScrollAttempts →
        (scroll_to_load_all counts maxScrollAttempts).2 = 3) := by
  have h := scrollAux_spec counts maxScrollAttempts 0 0 0 rfl (by omega)
  exact ⟨by simpa [scroll_to_load_all] using h.2.1,
    fun n hn => h.2.2.1 n (Nat.zero_le n) hn, h.2.2.2.1,
    fun hlt => h.2.2.2.2 (by simpa [scroll_to_load_all] using hlt)⟩

/-- C7 witness: with a constant item count of 5 and a cap of 10 the loop
scrolls 4 times (one growth observation, then three consecutive no-growth
observations) and stops with the stall counter at 3, before the cap. -/
theorem c7_scroll_stop_condition_witness :
    (scroll_to_load_all (fun _ => 5) 10).1 ≤ 10 ∧
    (specStallCounter (fun _ => 5) 2).2 < 3 ∧
    (scroll_to_load_all (fun _ => 5) 10).2
      = (specStallCounter (fun _ => 5) (scroll_to_load_all (fun _ => 5) 10).1).2 ∧
    (scroll_to_load_all (fun _ => 5) 10).2 = 3 := by
  have h := c7_scroll_stop_condition (fun _ => 5) 10
  exact ⟨h.1, h.2.1 2 (by decide), h.2.2.1, h.2.2.2 (by decide)⟩

end PhotoDownload
